import Mathlib

/-!
Shallow embedding of `src/app_temperatura.py`, a Streamlit temperature-monitor
demo: offline IsolationForest training on a synthetic corpus, then a 150-tick
simulation loop that generates readings on a divisibility-based fault schedule,
classifies each one, appends to a pandas history DataFrame and updates the
display containers.

Modelling conventions:
* Temperatures are rationals (`ℚ`); NumPy float arithmetic is abstracted to
  exact arithmetic.
* NumPy's global random stream is abstracted as an `Rng` structure holding an
  indexed family of standard-normal draws and an indexed family of uniform
  draws; `Rng.Valid` captures the NumPy guarantee that `uniform lo hi` lands
  in `[lo, hi)`.
* The scikit-learn `IsolationForest` lives outside the repository; it is
  abstracted as a `Modelo` wrapping an arbitrary per-sample prediction
  function (`+1` inlier / `-1` outlier), and `fit` as an arbitrary function
  from training data to `Modelo`, passed as a parameter.
* Python string formatting (`f"{v:.2f}"`) is abstracted: rows and alert
  messages carry the rational value itself.
-/

/-- Abstraction of NumPy's seeded global random stream (`np.random.seed(42)`):
`randn k` is the `k`-th standard-normal draw, `uniform lo hi k` the `k`-th
draw from `np.random.uniform(lo, hi)`. -/
structure Rng where
  randn : Nat → ℚ
  uniform : ℚ → ℚ → Nat → ℚ

/-- The NumPy contract for `np.random.uniform(lo, hi)`: every draw lies in
the half-open interval `[lo, hi)`. -/
def Rng.Valid (rng : Rng) : Prop :=
  ∀ lo hi k, lo < hi → lo ≤ rng.uniform lo hi k ∧ rng.uniform lo hi k < hi

/-- A concrete valid random stream: every normal draw is `0`, every uniform
draw is the lower bound of its interval. -/
def rng0 : Rng where
  randn := fun _ => 0
  uniform := fun lo _ _ => lo

/-- `np.clip(x, lo, hi)`: values below `lo` become `lo`, above `hi` become
`hi` (source lines 13 and 62; the source always calls it with `lo ≤ hi`). -/
def clip (x lo hi : ℚ) : ℚ := if x ≤ lo then lo else if hi ≤ x then hi else x

/-- Source line 12-13: `temperatura_normal_entrenamiento = 25 + 2*np.random.randn(500)`
clipped to `[20, 30]`; the value at index `j`. -/
def temperatura_normal_entrenamiento (rng : Rng) (j : Nat) : ℚ :=
  clip (25 + 2 * rng.randn j) 20 30

/-- NumPy slice assignment `arr[a:b] = vals`: indices in `[a, b)` now read
from `vals`, the rest keep reading from `arr`. -/
def sliceAssign (arr : Nat → ℚ) (a b : Nat) (vals : Nat → ℚ) : Nat → ℚ :=
  fun j => if a ≤ j ∧ j < b then vals j else arr j

/-- Source lines 16-20: copy of the baseline with the four fault segments
overwritten in source order — `[50:55] = uniform(45,55)` (pico alto),
`[120:125] = uniform(5,10)` (caída baja), `[200:205] = 23.0` (valor
constante), `[350:355] = uniform(40,50)` (otro pico alto). -/
def temperatura_con_fallos_entrenamiento (rng : Rng) : Nat → ℚ :=
  sliceAssign
    (sliceAssign
      (sliceAssign
        (sliceAssign (temperatura_normal_entrenamiento rng)
          50 55 (fun j => rng.uniform 45 55 j))
        120 125 (fun j => rng.uniform 5 10 j))
      200 205 (fun _ => 23))
    350 355 (fun j => rng.uniform 40 50 j)

/-- Source line 22: the 500-element corpus reshaped into a column;
the list of training samples handed to `model.fit`. -/
def data_for_model_training (rng : Rng) : List ℚ :=
  (List.range 500).map (temperatura_con_fallos_entrenamiento rng)

/-- Abstraction of a fitted scikit-learn `IsolationForest`: a per-sample
prediction function returning `-1` (outlier) or `+1` (inlier). -/
structure Modelo where
  predictOne : ℚ → Int
deriving Inhabited

/-- `model.predict` on a 2-D batch: one label per sample. -/
def Modelo.predict (m : Modelo) (batch : List ℚ) : List Int :=
  batch.map m.predictOne

/-- Source lines 26-27: `model = IsolationForest(...); model.fit(data)`.
`Except` models the Python exception flow of this training step; the source
performs no validation of the corpus (in particular no variance check), so
the only outcome is success. -/
def ajustarModelo (fit : List ℚ → Modelo) (datos : List ℚ) :
    Except String Modelo :=
  Except.ok (fit datos)

/-- Source line 78: wrap the scalar reading as a one-sample batch
(`np.array(v).reshape(1, -1)`) and ask the model; line 84: the tick treats
the reading as anomalous exactly when the returned label equals `-1`. -/
def clasificar (m : Modelo) (v : ℚ) : Bool :=
  decide (m.predict [v] = [-1])

/-- Source lines 56-74: generate the tick-`i` reading and its simulated fault
label. The branch order mirrors the source exactly: first the conjunction
guarding the normal case, then `i % 10 == 0`, `i % 15 == 0`, `i % 25 == 0`;
the trailing pair `(0, "N/A")` is the initialisation of lines 56-57, kept
when no branch fires. -/
def genLectura (rng : Rng) (i : Nat) : ℚ × String :=
  if i % 10 ≠ 0 ∧ i % 15 ≠ 0 ∧ i % 25 ≠ 0 then
    (clip (25 + 2 * rng.randn i) 20 30, "N/A")
  else if i % 10 = 0 then
    (rng.uniform 45 55 i, "Pico Alto")
  else if i % 15 = 0 then
    (rng.uniform 5 10 i, "Caída Baja")
  else if i % 25 = 0 then
    (23, "Valor Constante")
  else
    (0, "N/A")

/-- One row of `historial_lecturas_df` (source lines 96-101). `hora` is the
wall-clock timestamp abstracted to the tick index; `lectura` keeps the
rational value whose `"{:.2f}"` rendering the source stores. -/
structure Fila where
  hora : Nat
  lectura : ℚ
  estado : String
  tipoAnomalia : String
deriving DecidableEq, Inhabited

/-- Pandas `df.tail(n)`: the last `min n (length df)` rows, in order. -/
def tailFilas (df : List Fila) (n : Nat) : List Fila :=
  df.drop (df.length - n)

/-- One operation received by the Streamlit display containers during a tick.
`alerta` (a message shown in `alerta_container`) and `grafico` (a chart over a
window of rows) are part of the display vocabulary the spec describes; whether
the source ever issues them is a matter for the theorems below. -/
inductive DisplayCall where
  /-- `alerta_container.empty()` (source line 92). -/
  | alertaEmpty : DisplayCall
  /-- An alert message carrying a fault type and a reading value shown in
  `alerta_container`. -/
  | alerta (tipo : String) (valor : ℚ) : DisplayCall
  /-- `st.metric` with the latest reading (source line 108). -/
  | metric (valor : ℚ) : DisplayCall
  /-- The coloured status markdown (source line 112). -/
  | estadoMarkdown (color : String) (texto : String) : DisplayCall
  /-- `st.dataframe` over a window of history rows (source line 118). -/
  | tabla (filas : List Fila) : DisplayCall
  /-- A chart over a window of history rows. -/
  | grafico (filas : List Fila) : DisplayCall
deriving DecidableEq

/-- Output of one loop iteration: the new history, the appended row, the
alert message built on the anomaly branch (source lines 88-90, abstracted to
the `(tipo, valor)` pair the f-string interpolates; `none` when the branch is
not taken), and the display operations issued during the iteration, in
source order. -/
structure TickOut where
  historial : List Fila
  filaNueva : Fila
  mensajeAlerta : Option (String × ℚ)
  calls : List DisplayCall

/-- Source lines 53-120, the body of one iteration of
`for i in range(1, 151)` given the history accumulated so far: generate the
reading, predict, set `estado`/`color`/`mensaje_alerta`, clear the alert
container on the non-anomaly branch, append the row to the history, then
update the metric, status markdown and the 15-row tail table. The anomaly
branch only builds `mensaje_alerta`; the source never hands it to
`alerta_container`. -/
def tick (rng : Rng) (model : Modelo) (hist : List Fila) (i : Nat) : TickOut :=
  let vt := genLectura rng i
  let anom : Bool := decide (model.predict [vt.1] = [-1])
  let estado := if anom then "ANOMALÍA DETECTADA" else "Normal"
  let color := if anom then "red" else "green"
  let mensaje := if anom then some (vt.2, vt.1) else none
  let alertCalls := if anom then [] else [DisplayCall.alertaEmpty]
  let fila : Fila := ⟨i, vt.1, estado, vt.2⟩
  let hist2 := hist ++ [fila]
  { historial := hist2
    filaNueva := fila
    mensajeAlerta := mensaje
    calls := alertCalls ++
      [DisplayCall.metric vt.1,
       DisplayCall.estadoMarkdown color estado,
       DisplayCall.tabla (tailFilas hist2 15)] }

/-- The history after the first `n` iterations of the simulation loop
(ticks `1 .. n`); the source runs it with `n = 150`. -/
def simulate (rng : Rng) (model : Modelo) : Nat → List Fila
  | 0 => []
  | n + 1 => (tick rng model (simulate rng model n) (n + 1)).historial

/-- Source: the whole pipeline's classification run — fit the model from the
seeded corpus, then classify each query value in turn. `fit` abstracts
`IsolationForest(contamination, random_state).fit`; it receives the
contamination rate, the random state and the training samples. -/
def clasificaciones (fit : ℚ → Nat → List ℚ → Modelo) (contamination : ℚ)
    (seed : Nat) (corpus : List ℚ) (queries : List ℚ) : List Bool :=
  queries.map (clasificar (fit contamination seed corpus))

/-- A model that labels every sample an outlier. -/
def modeloDetectaTodo : Modelo := ⟨fun _ => -1⟩

/-- A model that labels every sample an inlier. -/
def modeloSinAnomalias : Modelo := ⟨fun _ => 1⟩

/-- An all-constant (zero-variance) training corpus. -/
def corpusConstante : List ℚ := List.replicate 500 23

/-- Is this display operation an alert message? -/
def DisplayCall.esAlerta : DisplayCall → Bool
  | .alerta _ _ => true
  | _ => false

/-- Is this display operation a chart? -/
def DisplayCall.esGrafico : DisplayCall → Bool
  | .grafico _ => true
  | _ => false

/-- A 20-row history of normal readings, as produced by 20 prior appends. -/
def hist20 : List Fila :=
  (List.range 20).map (fun k => ⟨k, 25, "Normal", "N/A"⟩)

theorem rng0_valid : rng0.Valid := by
  intro lo hi k h
  exact ⟨le_refl lo, h⟩

theorem clip_mem (x lo hi : ℚ) (h : lo ≤ hi) :
    lo ≤ clip x lo hi ∧ clip x lo hi ≤ hi := by
  unfold clip
  split_ifs with h1 h2
  · exact ⟨le_refl lo, h⟩
  · exact ⟨h, le_refl hi⟩
  · exact ⟨le_of_lt (lt_of_not_le h1), le_of_lt (lt_of_not_le h2)⟩

/-- C1: for every step `i ≥ 1`, the reading generator decides the fault type
by divisibility with the fixed precedence 10 before 15 before 25 (first
matching rule wins, otherwise a normal reading): a step divisible by 10
(including 30) yields `Pico Alto` with value in `[45,55]`; otherwise a step
divisible by 15 yields `Caída Baja` with value in `[5,10]`; otherwise a step
divisible by 25 yields `Valor Constante` with value exactly 23; otherwise a
normal reading with value clipped to `[20,30]`. -/
theorem c1_calendario_fallos (rng : Rng) (hv : rng.Valid) (i : Nat)
    (_hi : 1 ≤ i) :
    (i % 10 = 0 →
      (genLectura rng i).2 = "Pico Alto" ∧
      45 ≤ (genLectura rng i).1 ∧ (genLectura rng i).1 ≤ 55) ∧
    (i % 10 ≠ 0 → i % 15 = 0 →
      (genLectura rng i).2 = "Caída Baja" ∧
      5 ≤ (genLectura rng i).1 ∧ (genLectura rng i).1 ≤ 10) ∧
    (i % 10 ≠ 0 → i % 15 ≠ 0 → i % 25 = 0 →
      (genLectura rng i).2 = "Valor Constante" ∧ (genLectura rng i).1 = 23) ∧
    (i % 10 ≠ 0 → i % 15 ≠ 0 → i % 25 ≠ 0 →
      (genLectura rng i).2 = "N/A" ∧
      20 ≤ (genLectura rng i).1 ∧ (genLectura rng i).1 ≤ 30) := by
  refine ⟨?_, ?_, ?_, ?_⟩
  · intro h10
    have e : genLectura rng i = (rng.uniform 45 55 i, "Pico Alto") := by
      unfold genLectura
      rw [if_neg (by simp [h10]), if_pos h10]
    have hb := hv 45 55 i (by norm_num)
    rw [e]
    exact ⟨rfl, hb.1, le_of_lt hb.2⟩
  · intro h10 h15
    have e : genLectura rng i = (rng.uniform 5 10 i, "Caída Baja") := by
      unfold genLectura
      rw [if_neg (by simp [h15]), if_neg h10, if_pos h15]
    have hb := hv 5 10 i (by norm_num)
    rw [e]
    exact ⟨rfl, hb.1, le_of_lt hb.2⟩
  · intro h10 h15 h25
    have e : genLectura rng i = (23, "Valor Constante") := by
      unfold genLectura
      rw [if_neg (by simp [h25]), if_neg h10, if_neg h15, if_pos h25]
    rw [e]
    exact ⟨rfl, rfl⟩
  · intro h10 h15 h25
    have e : genLectura rng i = (clip (25 + 2 * rng.randn i) 20 30, "N/A") := by
      unfold genLectura
      rw [if_pos ⟨h10, h15, h25⟩]
    have hb := clip_mem (25 + 2 * rng.randn i) 20 30 (by norm_num)
    rw [e]
    exact ⟨rfl, hb.1, hb.2⟩

/-- C1 witness: step 30 (divisible by both 10 and 15) is classified by the
10-rule: `Pico Alto` with value in `[45,55]`. -/
theorem c1_testigo :
    (genLectura rng0 30).2 = "Pico Alto" ∧
    45 ≤ (genLectura rng0 30).1 ∧ (genLectura rng0 30).1 ≤ 55 :=
  (c1_calendario_fallos rng0 rng0_valid 30 (by norm_num)).1 (by norm_num)

set_option maxRecDepth 100000

/-- C2 (code bug): at step 10 with a model that reports an anomaly, the loop
builds the alert message with the fault type and the reading value, but the
display's alert operation never receives it — no `alerta` call is issued
(source lines 88-90 assign `mensaje_alerta` and never pass it to
`alerta_container`). On a normal tick the alert container is indeed
cleared. -/
theorem c2_fallo_alerta :
    clasificar modeloDetectaTodo (genLectura rng0 10).1 = true ∧
    (tick rng0 modeloDetectaTodo [] 10).mensajeAlerta = some ("Pico Alto", 45) ∧
    (tick rng0 modeloDetectaTodo [] 10).calls.any DisplayCall.esAlerta = false ∧
    (tick rng0 modeloSinAnomalias [] 1).calls.head? = some DisplayCall.alertaEmpty := by
  decide

/-- C3 counterexample: training on an all-constant corpus does not raise any
error — the training step succeeds and hands the model to the loop. -/
theorem c3_contraejemplo :
    corpusConstante.all (fun x => x == 23) = true ∧
    (ajustarModelo (fun _ => modeloSinAnomalias) corpusConstante).isOk = true := by
  decide

/-- C3 (amended): the training step performs no validation of the corpus —
for every fit function and every corpus, including a zero-variance one, it
returns a trained model and the detection loop starts. -/
theorem c3_entrenamiento_siempre_ok (fit : List ℚ → Modelo) (datos : List ℚ) :
    (ajustarModelo fit datos).isOk = true := rfl

/-- C4 counterexample: under the concrete valid stream whose uniform draws
sit at the lower bound, the fourth overwritten cell (index 350) holds 40 —
overwritten away from the baseline 25, yet in none of the claimed value sets
`[45,55]`, `[5,10]`, `{23}`: the fourth segment draws from `uniform(40,50)`,
so the corpus does not have two segments with values in `[45,55]`. -/
theorem c4_contraejemplo :
    rng0.Valid ∧
    temperatura_con_fallos_entrenamiento rng0 350 = 40 ∧
    temperatura_normal_entrenamiento rng0 350 = 25 ∧
    ¬ (45 ≤ temperatura_con_fallos_entrenamiento rng0 350 ∧
        temperatura_con_fallos_entrenamiento rng0 350 ≤ 55) ∧
    ¬ (5 ≤ temperatura_con_fallos_entrenamiento rng0 350 ∧
        temperatura_con_fallos_entrenamiento rng0 350 ≤ 10) ∧
    temperatura_con_fallos_entrenamiento rng0 350 ≠ 23 := by
  refine ⟨rng0_valid, ?_, ?_, ?_, ?_, ?_⟩ <;>
    norm_num [temperatura_con_fallos_entrenamiento,
      temperatura_normal_entrenamiento, sliceAssign, clip, rng0]

/-- C4 (amended): given the fixed seed the corpus builder overwrites exactly
four disjoint index ranges of the baseline: `[50,55)` with uniform values in
`[45,55)` (high spike), `[120,125)` with uniform values in `[5,10)` (low
drop), `[200,205)` with the constant 23 (stuck value), and `[350,355)` with
uniform values in `[40,50)` (a second high spike); every other index keeps
its baseline value. -/
theorem c4_segmentos_fallo (rng : Rng) (hv : rng.Valid) (j : Nat) :
    (50 ≤ j ∧ j < 55 →
      45 ≤ temperatura_con_fallos_entrenamiento rng j ∧
      temperatura_con_fallos_entrenamiento rng j < 55) ∧
    (120 ≤ j ∧ j < 125 →
      5 ≤ temperatura_con_fallos_entrenamiento rng j ∧
      temperatura_con_fallos_entrenamiento rng j < 10) ∧
    (200 ≤ j ∧ j < 205 →
      temperatura_con_fallos_entrenamiento rng j = 23) ∧
    (350 ≤ j ∧ j < 355 →
      40 ≤ temperatura_con_fallos_entrenamiento rng j ∧
      temperatura_con_fallos_entrenamiento rng j < 50) ∧
    (¬ (50 ≤ j ∧ j < 55) → ¬ (120 ≤ j ∧ j < 125) → ¬ (200 ≤ j ∧ j < 205) →
      ¬ (350 ≤ j ∧ j < 355) →
      temperatura_con_fallos_entrenamiento rng j =
        temperatura_normal_entrenamiento rng j) := by
  refine ⟨?_, ?_, ?_, ?_, ?_⟩
  · rintro ⟨h1, h2⟩
    have e : temperatura_con_fallos_entrenamiento rng j = rng.uniform 45 55 j := by
      simp only [temperatura_con_fallos_entrenamiento, sliceAssign]
      rw [if_neg (by omega), if_neg (by omega), if_neg (by omega),
        if_pos ⟨h1, h2⟩]
    rw [e]
    exact hv 45 55 j (by norm_num)
  · rintro ⟨h1, h2⟩
    have e : temperatura_con_fallos_entrenamiento rng j = rng.uniform 5 10 j := by
      simp only [temperatura_con_fallos_entrenamiento, sliceAssign]
      rw [if_neg (by omega), if_neg (by omega), if_pos ⟨h1, h2⟩]
    rw [e]
    exact hv 5 10 j (by norm_num)
  · rintro ⟨h1, h2⟩
    simp only [temperatura_con_fallos_entrenamiento, sliceAssign]
    rw [if_neg (by omega), if_pos ⟨h1, h2⟩]
  · rintro ⟨h1, h2⟩
    have e : temperatura_con_fallos_entrenamiento rng j = rng.uniform 40 50 j := by
      simp only [temperatura_con_fallos_entrenamiento, sliceAssign]
      rw [if_pos ⟨h1, h2⟩]
    rw [e]
    exact hv 40 50 j (by norm_num)
  · intro h1 h2 h3 h4
    simp only [temperatura_con_fallos_entrenamiento, sliceAssign]
    rw [if_neg h4, if_neg h3, if_neg h2, if_neg h1]

/-- C4 witness: at the concrete valid stream, index 350 (start of the fourth
segment) holds a value in `[40,50)`. -/
theorem c4_testigo :
    40 ≤ temperatura_con_fallos_entrenamiento rng0 350 ∧
    temperatura_con_fallos_entrenamiento rng0 350 < 50 :=
  (c4_segmentos_fallo rng0 rng0_valid 350).2.2.2.1 (by decide)

/-- C5: for every history of `k` appended rows and every `n`, `tail(n)`
returns exactly `min n k` rows, and the history splits as its first
`k - n` rows followed by `tail(n)` — the tail is the contiguous final
segment of the history, in arrival order, containing the most recent rows
(after 20 appends, `tail(15)` is everything past the first 5). -/
theorem c5_ventana_tail (df : List Fila) (n : Nat) :
    (tailFilas df n).length = min n df.length ∧
    df.take (df.length - n) ++ tailFilas df n = df := by
  constructor
  · simp only [tailFilas, List.length_drop]
    omega
  · exact List.take_append_drop _ _

/-- C6: the pipeline's classifications are a pure function of the fit
procedure, contamination rate, seed, training corpus and query sequence: two
runs with equal inputs yield equal classification sequences. -/
theorem c6_determinismo (fit : ℚ → Nat → List ℚ → Modelo)
    (c1 c2 : ℚ) (s1 s2 : Nat) (corpus1 corpus2 queries1 queries2 : List ℚ)
    (hc : c1 = c2) (hs : s1 = s2) (hcorpus : corpus1 = corpus2)
    (hq : queries1 = queries2) :
    clasificaciones fit c1 s1 corpus1 queries1 =
    clasificaciones fit c2 s2 corpus2 queries2 := by
  rw [hc, hs, hcorpus, hq]

/-- C6 witness: a concrete rerun with seed 42, contamination 3/100, the
constant corpus and a two-value query sequence reproduces itself. -/
theorem c6_testigo :
    clasificaciones (fun _ _ _ => modeloDetectaTodo) (3/100) 42
        corpusConstante [25, 45] =
    clasificaciones (fun _ _ _ => modeloDetectaTodo) (3/100) 42
        corpusConstante [25, 45] :=
  c6_determinismo (fun _ _ _ => modeloDetectaTodo) (3/100) (3/100) 42 42
    corpusConstante corpusConstante [25, 45] [25, 45] rfl rfl rfl rfl

/-- C7 counterexample: on the tick following 20 appends, the display receives
no chart call at all and no call carrying the 50-record trailing window (which
differs from the 15-record one there): only the 15-row table is handed
over. -/
theorem c7_contraejemplo :
    (tick rng0 modeloSinAnomalias hist20 30).calls.any DisplayCall.esGrafico
      = false ∧
    (tick rng0 modeloSinAnomalias hist20 30).calls.any
      (fun c => decide (c = DisplayCall.tabla
        (tailFilas (tick rng0 modeloSinAnomalias hist20 30).historial 50)))
      = false ∧
    tailFilas (tick rng0 modeloSinAnomalias hist20 30).historial 50 ≠
      tailFilas (tick rng0 modeloSinAnomalias hist20 30).historial 15 := by
  decide

/-- C7 (amended): on every tick the display receives the latest reading
metric, the status label with its colour hint, and the 15-record trailing
window as the table view; it never receives a chart (no 50-record window) and
never receives an alert message — the alert container is only cleared, and
only on normal ticks. -/
theorem c7_actualizacion_display (rng : Rng) (model : Modelo)
    (hist : List Fila) (i : Nat) :
    DisplayCall.metric (genLectura rng i).1 ∈ (tick rng model hist i).calls ∧
    DisplayCall.estadoMarkdown
        (if clasificar model (genLectura rng i).1 then "red" else "green")
        (if clasificar model (genLectura rng i).1 then "ANOMALÍA DETECTADA"
          else "Normal")
      ∈ (tick rng model hist i).calls ∧
    DisplayCall.tabla (tailFilas (tick rng model hist i).historial 15)
      ∈ (tick rng model hist i).calls ∧
    (tick rng model hist i).calls.any DisplayCall.esGrafico = false ∧
    (tick rng model hist i).calls.any DisplayCall.esAlerta = false := by
  unfold tick clasificar
  by_cases h : model.predict [(genLectura rng i).1] = [-1] <;>
    simp [h, DisplayCall.esGrafico, DisplayCall.esAlerta]

/-- C8: `clasificar` asks the model about the one-sample batch `[v]` (the
batch really has exactly one sample) and reports an anomaly exactly when the
model's label for `v` is `-1`. -/
theorem c8_clasificar_lote (m : Modelo) (v : ℚ) :
    (m.predict [v]).length = 1 ∧
    (clasificar m v = true ↔ m.predictOne v = -1) := by
  constructor
  · rfl
  · simp [clasificar, Modelo.predict]

theorem simulate_succ (rng : Rng) (model : Modelo) (n : Nat) :
    simulate rng model (n + 1) =
      simulate rng model n ++
        [(tick rng model (simulate rng model n) (n + 1)).filaNueva] := rfl

theorem simulate_length (rng : Rng) (model : Modelo) (n : Nat) :
    (simulate rng model n).length = n := by
  induction n with
  | zero => rfl
  | succ k ih =>
    rw [simulate_succ, List.length_append, ih]
    rfl

theorem simulate_take (rng : Rng) (model : Modelo) :
    ∀ n m, m ≤ n → simulate rng model m = (simulate rng model n).take m
  | 0, m, h => by
    have hm : m = 0 := Nat.le_zero.mp h
    subst hm
    rfl
  | k + 1, m, h => by
    rcases Nat.lt_or_ge m (k + 1) with hlt | hge
    · have hm : m ≤ k := Nat.lt_succ_iff.mp hlt
      rw [simulate_succ,
        List.take_append_of_le_length (by rw [simulate_length]; exact hm)]
      exact simulate_take rng model k m hm
    · have hm : m = k + 1 := Nat.le_antisymm h hge
      subst hm
      rw [List.take_of_length_le (le_of_eq (simulate_length rng model (k + 1)))]

/-- C9: the loop's stopping bound is checked at the top of every iteration
(running for `m` ticks performs exactly `m` appends), and stopping after `m`
of `n` ticks leaves the history exactly the first `m` records of the full
run, intact and in order — early termination between ticks does not corrupt
the history. -/
theorem c9_parada_segura (rng : Rng) (model : Modelo) (m n : Nat)
    (h : m ≤ n) :
    (simulate rng model m).length = m ∧
    simulate rng model m = (simulate rng model n).take m :=
  ⟨simulate_length rng model m, simulate_take rng model n m h⟩

/-- C9 witness: stopping after 2 of 5 ticks keeps exactly the first two
records of the 5-tick run. -/
theorem c9_testigo :
    (simulate rng0 modeloSinAnomalias 2).length = 2 ∧
    simulate rng0 modeloSinAnomalias 2 =
      (simulate rng0 modeloSinAnomalias 5).take 2 :=
  c9_parada_segura rng0 modeloSinAnomalias 2 5 (by decide)

theorem genLectura_tipo_na (rng : Rng) (i : Nat) :
    (genLectura rng i).2 = "N/A" ↔
      (i % 10 ≠ 0 ∧ i % 15 ≠ 0 ∧ i % 25 ≠ 0) := by
  unfold genLectura
  by_cases h10 : i % 10 = 0
  · rw [if_neg (by simp [h10]), if_pos h10]
    show ("Pico Alto" = "N/A") ↔ (i % 10 ≠ 0 ∧ i % 15 ≠ 0 ∧ i % 25 ≠ 0)
    constructor
    · intro hx
      exact absurd hx (by decide)
    · rintro ⟨ha, -⟩
      exact absurd h10 ha
  · by_cases h15 : i % 15 = 0
    · rw [if_neg (by simp [h15]), if_neg h10, if_pos h15]
      show ("Caída Baja" = "N/A") ↔ (i % 10 ≠ 0 ∧ i % 15 ≠ 0 ∧ i % 25 ≠ 0)
      constructor
      · intro hx
        exact absurd hx (by decide)
      · rintro ⟨-, ha, -⟩
        exact absurd h15 ha
    · by_cases h25 : i % 25 = 0
      · rw [if_neg (by simp [h25]), if_neg h10, if_neg h15, if_pos h25]
        show ("Valor Constante" = "N/A") ↔ (i % 10 ≠ 0 ∧ i % 15 ≠ 0 ∧ i % 25 ≠ 0)
        constructor
        · intro hx
          exact absurd hx (by decide)
        · rintro ⟨-, -, ha⟩
          exact absurd h25 ha
      · rw [if_pos ⟨h10, h15, h25⟩]
        exact ⟨fun _ => ⟨h10, h15, h25⟩, fun _ => rfl⟩

/-- C10: the fault-type field of every history record comes solely from the
injection schedule — it is `"N/A"` exactly when the step index is divisible
by none of 10, 15, 25, and it is the same whatever the model and prior
history; consequently a record can carry anomaly status with fault type
`"N/A"` (a false positive on a normal reading) and an injected-fault record
can carry `Normal` status while listing its fault type. -/
theorem c10_tipo_independiente :
    (∀ rng model hist i,
      ((tick rng model hist i).filaNueva.tipoAnomalia = "N/A" ↔
        (i % 10 ≠ 0 ∧ i % 15 ≠ 0 ∧ i % 25 ≠ 0))) ∧
    (∀ rng model1 model2 hist1 hist2 i,
      (tick rng model1 hist1 i).filaNueva.tipoAnomalia =
      (tick rng model2 hist2 i).filaNueva.tipoAnomalia) ∧
    (∃ model hist i,
      (tick rng0 model hist i).filaNueva.estado = "ANOMALÍA DETECTADA" ∧
      (tick rng0 model hist i).filaNueva.tipoAnomalia = "N/A") ∧
    (∃ model hist i,
      (tick rng0 model hist i).filaNueva.estado = "Normal" ∧
      (tick rng0 model hist i).filaNueva.tipoAnomalia ≠ "N/A") := by
  refine ⟨?_, ?_, ?_, ?_⟩
  · intro rng model hist i
    exact genLectura_tipo_na rng i
  · intro rng model1 model2 hist1 hist2 i
    rfl
  · exact ⟨modeloDetectaTodo, [], 1, rfl, rfl⟩
  · exact ⟨modeloSinAnomalias, [], 10, rfl, by decide⟩
